import Mathlib

/-!
A verification development for the PMserch stock monitor (`src/monitor.py`).

The change-detection core is embedded shallowly:

* `is_in_stock` mirrors `monitor.is_in_stock` (lines 165-178): lowercase the
  raw stock label, check the configured in-stock substring patterns first,
  then the sold-out patterns, then the stripped-empty default, else `false`.
* `decideReason`, `processItems` mirror the per-item loop of `monitor.main`
  (lines 228-254): classification, the transition policy against the prior
  snapshot, the unconditional fresh state record, and the accumulated
  notification decisions.
* `runMain` mirrors the control flow of `monitor.main` (lines 201-270) as a
  pure function from the fetch outcome, the configuration, the environment
  variable, the prior snapshot and the per-notification delivery outcomes to
  an event trace (extraction attempt, fatal error log, state save, delivery
  attempts) plus the state left on disk.
* `save_state_crash` mirrors `monitor.save_state` (lines 35-39): write the
  serialized snapshot to `path + ".tmp"`, then `os.replace` it over `path`;
  crash points model an interrupted run.

Python-specific behaviour is kept: `or` treats the empty string as falsy
(`pyOr`), `cfg.get` defaults are `Option.getD` at each use site, and the
label emptiness test is Python's `text.strip() == ""`, i.e. all-whitespace.
Strings are modelled as Lean `String`s; `.lower()` is `String.toLower`
(ASCII case folding; the patterns involved are ASCII/Japanese, which Python
lowercases identically) and Python's substring test `p in text` is infix
containment on the underlying character lists.
-/

namespace PMserch

/-- Python's `in` on strings: `p in text` is substring containment, taken
on the underlying character lists. -/
def pyIn (p text : List Char) : Bool := decide (p <:+: text)

/-- Python's `s.lower()` as a character list (ASCII case folding; the
patterns of this program are ASCII or Japanese, which Python's `lower`
leaves unchanged as well). -/
def lowerStr (s : String) : List Char := s.toList.map Char.toLower

/-- Python's `a or b` for optional strings: `None` and `""` are falsy. -/
def pyOr (a b : Option String) : Option String :=
  match a with
  | some s => if s.isEmpty then b else some s
  | none => b

/-- Python's truthiness of an optional string (`if not webhook`). -/
def truthy (o : Option String) : Bool :=
  match o with
  | some s => !s.isEmpty
  | none => false

/-- Python's `text.strip() == ""`: every character is whitespace. -/
def stripEmpty (t : List Char) : Bool := t.all Char.isWhitespace

/-- The recognized configuration keys of `config.json`, each `none` when the
key is absent so that the `cfg.get(key, default)` calls of the source are
`Option.getD` here. -/
structure Config where
  sold_out_patterns : Option (List String) := none
  in_stock_patterns : Option (List String) := none
  assume_in_stock_if_no_label : Option Bool := none
  notify_new_in_stock : Option Bool := none
  notify_new : Option Bool := none
  discord_webhook_url : Option String := none
deriving DecidableEq, Repr

/-- Default sold-out patterns of `is_in_stock` (line 167). -/
def defaultSoldOutPatterns : List String := ["sold out", "売り切れ", "欠品"]

/-- Default in-stock patterns of `is_in_stock` (line 168). -/
def defaultInStockPatterns : List String := ["add to cart", "カートに入れる", "在庫あり", "在庫"]

/-- The resolved, lowercased in-stock pattern list (line 168). -/
def inStockPatterns (cfg : Config) : List (List Char) :=
  (cfg.in_stock_patterns.getD defaultInStockPatterns).map lowerStr

/-- The resolved, lowercased sold-out pattern list (line 167). -/
def soldOutPatterns (cfg : Config) : List (List Char) :=
  (cfg.sold_out_patterns.getD defaultSoldOutPatterns).map lowerStr

/-- `monitor.is_in_stock` (lines 165-178): classify a raw stock label.
`stock_text` is the item's optional raw label; `(item.get("stock_text") or
"")` is `getD ""`. -/
def is_in_stock (stock_text : Option String) (cfg : Config) : Bool :=
  let text := lowerStr (stock_text.getD "")
  if (inStockPatterns cfg).any (fun p => pyIn p text) then true
  else if (soldOutPatterns cfg).any (fun p => pyIn p text) then false
  else if stripEmpty text then cfg.assume_in_stock_if_no_label.getD false
  else false

/-- Timestamps (`datetime.utcnow().isoformat() + "Z"`) are opaque strings. -/
abbrev Timestamp := String

/-- A raw item produced by the extractor (`parse_with_bs4` /
`parse_with_playwright` output dictionaries). -/
structure RawItem where
  id : Option String := none
  name : Option String := none
  url : Option String := none
  image : Option String := none
  stock_text : Option String := none
deriving DecidableEq, Repr

/-- An item identity: `item_id = it.get("id") or it.get("name")` (line 229)
may be `None` in Python, hence `Option String`. -/
abbrev Key := Option String

/-- A persisted per-item state record (lines 243-250). -/
structure Record where
  name : Option String
  url : Option String
  image : Option String
  stock_text : Option String
  in_stock : Bool
  last_seen : Timestamp
deriving DecidableEq, Repr

/-- The fresh record written for an extracted item (lines 243-250). -/
def mkRecord (it : RawItem) (verdict : Bool) (now : Timestamp) : Record :=
  { name := it.name, url := it.url, image := it.image,
    stock_text := it.stock_text, in_stock := verdict, last_seen := now }

/-- The persisted snapshot: the `items` mapping (a Python dict, modelled as
an association list with unique keys) and the `last_checked` timestamp. -/
structure State where
  items : List (Key × Record)
  last_checked : Option Timestamp
deriving DecidableEq, Repr

/-- Dictionary lookup `d.get(k)`. -/
def lookupS (m : List (Key × Record)) (k : Key) : Option Record :=
  match m with
  | [] => none
  | (k', v) :: rest => if k' = k then some v else lookupS rest k

/-- Dictionary assignment `d[k] = v`: replace the binding if present,
append otherwise. -/
def upsert (m : List (Key × Record)) (k : Key) (v : Record) : List (Key × Record) :=
  match m with
  | [] => [(k, v)]
  | (k', v') :: rest => if k' = k then (k, v) :: rest else (k', v') :: upsert rest k v

/-- `item_id = it.get("id") or it.get("name")` (line 229). -/
def itemId (it : RawItem) : Key := pyOr it.id it.name

/-- Reason tags of the transition policy (lines 234-241); `reasonText` gives
the literal strings of the source. -/
inductive Reason where
  | restock
  | newInStock
  | newItem
deriving DecidableEq, Repr

/-- The reason string the source attaches to each decision. -/
def reasonText : Reason → String
  | Reason.restock => "売り切れ → 入荷 (restock)"
  | Reason.newInStock => "新着入荷 (new & in stock)"
  | Reason.newItem => "新着 (new item)"

/-- The transition policy (lines 232-241): given the prior record for this
identity (from the snapshot loaded at start of run) and the current verdict,
optionally emit a notification reason. `prev_in_stock is False` is
`!p.in_stock` on records this program writes. -/
def decideReason (prev : Option Record) (verdict : Bool) (cfg : Config) : Option Reason :=
  match prev with
  | some p =>
      if !p.in_stock && verdict then some Reason.restock else none
  | none =>
      if verdict && cfg.notify_new_in_stock.getD true then some Reason.newInStock
      else if cfg.notify_new.getD false then some Reason.newItem
      else none

/-- The per-item loop of `main` (lines 226-254): for each extracted item,
classify, decide against the PRIOR snapshot `prev`, write the fresh record
into the accumulating `new_state_items` map `m`, and append any emitted
decision to `ns`. -/
def processItems (cfg : Config) (prev : List (Key × Record)) (now : Timestamp) :
    List RawItem → List (Key × Record) → List (RawItem × Reason) →
    List (Key × Record) × List (RawItem × Reason)
  | [], m, ns => (m, ns)
  | it :: rest, m, ns =>
      let verdict := is_in_stock it.stock_text cfg
      let reason := decideReason (lookupS prev (itemId it)) verdict cfg
      let m' := upsert m (itemId it) (mkRecord it verdict now)
      let ns' := match reason with
        | some r => ns ++ [(it, r)]
        | none => ns
      processItems cfg prev now rest m' ns'

/-- Observable events of one run, in order: the extraction attempt
(lines 207-217), a fatal error log followed by `return`
(lines 216-217 or 223-224), the snapshot save (line 258), and each
notification delivery attempt with its outcome (lines 261-268). -/
inductive Event where
  | extract
  | logError
  | saveState (st : State)
  | sendAttempt (idx : Nat) (ok : Bool)
deriving DecidableEq, Repr

/-- Delivery attempts for notifications `0 .. n-1`; `deliver i` is whether
the webhook post for the `i`-th decision succeeds (a failure is caught and
logged, lines 267-268). -/
def sendEvents (deliver : Nat → Bool) (n : Nat) : List Event :=
  (List.range n).map (fun i => Event.sendAttempt i (deliver i))

/-- The outcome of one run: the ordered event trace and the snapshot on disk
when the run ends (the prior snapshot unless `save_state` ran). -/
structure RunOutcome where
  events : List Event
  diskState : State
deriving Repr

/-- `monitor.main` (lines 201-270) after config and state load: fetch and
parse (`fetch` is the extractor's outcome), abort on extraction failure,
resolve the webhook from config or the `DISCORD_WEBHOOK_URL` environment
variable `env` and abort if absent, then run the item loop, save the new
snapshot, and attempt every notification in order. -/
def runMain (cfg : Config) (env : Option String) (fetch : Except Unit (List RawItem))
    (prev : State) (deliver : Nat → Bool) (now : Timestamp) : RunOutcome :=
  match fetch with
  | Except.error _ => { events := [Event.extract, Event.logError], diskState := prev }
  | Except.ok items =>
      if truthy (pyOr cfg.discord_webhook_url env) then
        let res := processItems cfg prev.items now items [] []
        let newState : State := { items := res.1, last_checked := some now }
        { events := Event.extract :: Event.saveState newState ::
            sendEvents deliver res.2.length,
          diskState := newState }
      else
        { events := [Event.extract, Event.logError], diskState := prev }

/-! ### Disk model for `save_state` (lines 35-39) -/

/-- File contents at the snapshot path and at the `path + ".tmp"` path;
contents are the serialized snapshot bytes, `none` when the file is absent. -/
structure Disk where
  main : Option (List Char)
  tmp : Option (List Char)
deriving DecidableEq, Repr

/-- Where a crash can interrupt `save_state`: before anything, after `n`
bytes of the temporary file were written, after the temporary write
completed, or after the atomic `os.replace`. -/
inductive CrashPoint where
  | beforeWrite
  | midWrite (n : Nat)
  | afterWrite
  | afterReplace
deriving DecidableEq, Repr

/-- The disk after `save_state` is interrupted at `cp` while saving the
serialized snapshot `data`: the temporary write touches only the `.tmp`
path, and `os.replace` atomically moves the complete `.tmp` contents over
the snapshot path. -/
def save_state_crash (d : Disk) (data : List Char) : CrashPoint → Disk
  | CrashPoint.beforeWrite => d
  | CrashPoint.midWrite n => { d with tmp := some (data.take n) }
  | CrashPoint.afterWrite => { d with tmp := some data }
  | CrashPoint.afterReplace => { main := some data, tmp := none }

/-- What `load_state` observes at the snapshot path (line 42-46): the file's
contents when present. -/
def readSnapshot (d : Disk) : Option (List Char) := d.main

/-! ### Characterizations used to state the claims -/

/-- The notification decision a single extracted occurrence yields when
decided against the prior snapshot alone. -/
def stepNotif (cfg : Config) (prev : List (Key × Record)) (it : RawItem) :
    Option (RawItem × Reason) :=
  (decideReason (lookupS prev (itemId it)) (is_in_stock it.stock_text cfg) cfg).map
    (fun r => (it, r))

/-- The fresh record of the last occurrence (in extraction order) of
identity `k` in the extracted item list, if any. -/
def lastOcc (cfg : Config) (now : Timestamp) (k : Key) : List RawItem → Option Record
  | [] => none
  | it :: rest =>
      match lastOcc cfg now k rest with
      | some r => some r
      | none =>
          if itemId it = k then some (mkRecord it (is_in_stock it.stock_text cfg) now)
          else none

/-! ### Helper lemmas -/

theorem lookupS_upsert_self (m : List (Key × Record)) (k : Key) (v : Record) :
    lookupS (upsert m k v) k = some v := by
  induction m with
  | nil => simp [upsert, lookupS]
  | cons hd tl ih =>
      obtain ⟨k', v'⟩ := hd
      by_cases h : k' = k
      · simp [upsert, h, lookupS]
      · simp [upsert, h, lookupS, ih]

theorem lookupS_upsert_ne (m : List (Key × Record)) (k k' : Key) (v : Record)
    (h : k ≠ k') : lookupS (upsert m k v) k' = lookupS m k' := by
  induction m with
  | nil => simp [upsert, lookupS, h]
  | cons hd tl ih =>
      obtain ⟨k0, v0⟩ := hd
      by_cases h0 : k0 = k
      · subst h0
        simp [upsert, lookupS, h]
      · simp [upsert, h0, lookupS, ih]

theorem processItems_notifs (cfg : Config) (prev : List (Key × Record)) (now : Timestamp) :
    ∀ (items : List RawItem) (m : List (Key × Record)) (ns : List (RawItem × Reason)),
      (processItems cfg prev now items m ns).2 = ns ++ items.filterMap (stepNotif cfg prev) := by
  intro items
  induction items with
  | nil => intro m ns; simp [processItems]
  | cons it rest ih =>
      intro m ns
      rw [processItems, ih]
      cases h : decideReason (lookupS prev (itemId it)) (is_in_stock it.stock_text cfg) cfg with
      | none => simp [List.filterMap_cons, stepNotif, h]
      | some r => simp [List.filterMap_cons, stepNotif, h]

theorem processItems_lookup (cfg : Config) (prev : List (Key × Record)) (now : Timestamp) :
    ∀ (items : List RawItem) (m : List (Key × Record)) (ns : List (RawItem × Reason)) (k : Key),
      lookupS (processItems cfg prev now items m ns).1 k =
        match lastOcc cfg now k items with
        | some r => some r
        | none => lookupS m k := by
  intro items
  induction items with
  | nil => intro m ns k; simp [processItems, lastOcc]
  | cons it rest ih =>
      intro m ns k
      rw [processItems, ih]
      cases h : lastOcc cfg now k rest with
      | some r => simp [lastOcc, h]
      | none =>
          by_cases hk : itemId it = k
          · subst hk
            simp [lastOcc, h, lookupS_upsert_self]
          · simp [lastOcc, h, hk, lookupS_upsert_ne _ _ _ _ hk]

theorem lastOcc_isSome_iff (cfg : Config) (now : Timestamp) (k : Key) :
    ∀ items : List RawItem,
      (lastOcc cfg now k items).isSome = true ↔ ∃ it, it ∈ items ∧ itemId it = k := by
  intro items
  induction items with
  | nil => simp [lastOcc]
  | cons it rest ih =>
      cases h : lastOcc cfg now k rest with
      | some r =>
          simp only [lastOcc, h, Option.isSome_some, true_iff]
          obtain ⟨it', h1, h2⟩ := ih.mp (by simp [h])
          exact ⟨it', List.mem_cons_of_mem _ h1, h2⟩
      | none =>
          by_cases hk : itemId it = k
          · simp only [lastOcc, h, hk, if_true, Option.isSome_some, true_iff]
            exact ⟨it, List.mem_cons_self _ _, hk⟩
          · simp only [lastOcc, h, hk, if_false, Option.isSome_none,
              Bool.false_eq_true, false_iff]
            rintro ⟨it', h1, h2⟩
            rcases List.mem_cons.mp h1 with h1 | h1
            · exact hk (h1 ▸ h2)
            · have := ih.mpr ⟨it', h1, h2⟩
              rw [h] at this
              simp at this

theorem lastOcc_eq_some (cfg : Config) (now : Timestamp) (k : Key) :
    ∀ (items : List RawItem) (r : Record), lastOcc cfg now k items = some r →
      ∃ it, it ∈ items ∧ itemId it = k ∧
        r = mkRecord it (is_in_stock it.stock_text cfg) now := by
  intro items
  induction items with
  | nil => intro r h; simp [lastOcc] at h
  | cons it rest ih =>
      intro r h
      rw [lastOcc] at h
      cases h0 : lastOcc cfg now k rest with
      | some r0 =>
          rw [h0] at h
          obtain ⟨it', h1, h2, h3⟩ := ih r0 h0
          exact ⟨it', List.mem_cons_of_mem _ h1, h2, (Option.some_inj.mp h) ▸ h3⟩
      | none =>
          rw [h0] at h
          by_cases hk : itemId it = k
          · rw [if_pos hk] at h
            exact ⟨it, List.mem_cons_self _ _, hk, (Option.some_inj.mp h).symm⟩
          · rw [if_neg hk] at h
            exact absurd h (by simp)

/-! ### Concrete instances used by witnesses and counterexamples -/

/-- An empty `config.json`: every `cfg.get` falls back to its default. -/
def cfgDefault : Config := {}

/-- A configuration whose webhook endpoint is set. -/
def cfgHook : Config := { discord_webhook_url := some "https://discord.example/webhook" }

/-- A configuration with empty pattern lists and
`assume_in_stock_if_no_label = true`. -/
def cfgNoPatterns : Config :=
  { in_stock_patterns := some ([] : List String), sold_out_patterns := some ([] : List String),
    assume_in_stock_if_no_label := some true }

/-- An extracted item whose label matches the default in-stock pattern
`"add to cart"`. -/
def itRestock : RawItem :=
  { id := some "u", name := some "Item U", url := some "u", image := none,
    stock_text := some "Add to cart" }

/-- A prior record for identity `some "u"` with the given verdict. -/
def recPrior (b : Bool) : Record :=
  { name := some "Item U", url := some "u", image := none,
    stock_text := some "Sold out", in_stock := b, last_seen := "t0" }

/-- An empty prior snapshot. -/
def stEmpty : State := { items := [], last_checked := none }

/-- A prior snapshot holding `some "u"` as sold out. -/
def stPrior : State := { items := [(some "u", recPrior false)], last_checked := some "t0" }

/-- An in-stock item; two occurrences of it share the identity `some "d"`. -/
def itDup : RawItem :=
  { id := some "d", name := some "Dup", url := some "d", image := none,
    stock_text := some "在庫あり" }

/-- A sold-out prior record for identity `some "d"`. -/
def recDupPrior : Record :=
  { name := some "Dup", url := some "d", image := none,
    stock_text := some "Sold out", in_stock := false, last_seen := "t0" }

/-! ### Claims -/

/-- C1: for an item with a prior record, the transition policy of the item
loop emits exactly one notification decision, with the restock reason, when
the prior verdict was `not_in_stock` and the current verdict is `in_stock`;
and when the prior verdict was `in_stock` it emits no decision, whatever
the current verdict (covering both the `in_stock -> in_stock` and the
`in_stock -> not_in_stock` pair). -/
theorem restock_transition (cfg : Config) (prev : List (Key × Record))
    (it : RawItem) (p : Record) (now : Timestamp)
    (hprev : lookupS prev (itemId it) = some p) :
    (p.in_stock = false → is_in_stock it.stock_text cfg = true →
      (processItems cfg prev now [it] [] []).2 = [(it, Reason.restock)]) ∧
    (p.in_stock = true → (processItems cfg prev now [it] [] []).2 = []) := by
  refine ⟨fun h1 h2 => ?_, fun h1 => ?_⟩
  · simp [processItems_notifs, stepNotif, hprev, decideReason, h1, h2]
  · simp [processItems_notifs, stepNotif, hprev, decideReason, h1]

/-- Witness for C1: a sold-out-before, in-stock-now item yields exactly the
restock decision; an in-stock-before item yields none. -/
theorem restock_transition_witness :
    (processItems cfgDefault [(some "u", recPrior false)] "t1" [itRestock] [] []).2 =
      [(itRestock, Reason.restock)] ∧
    (processItems cfgDefault [(some "u", recPrior true)] "t1" [itRestock] [] []).2 = [] :=
  ⟨(restock_transition cfgDefault [(some "u", recPrior false)] itRestock (recPrior false) "t1"
      (by decide)).1 rfl (by decide),
   (restock_transition cfgDefault [(some "u", recPrior true)] itRestock (recPrior true) "t1"
      (by decide)).2 rfl⟩

/-- C2: whenever the (lowercased) label contains one of the resolved
in-stock patterns, classification returns `in_stock`, regardless of any
sold-out pattern the label may also contain. -/
theorem in_stock_pattern_priority (cfg : Config) (stock_text : Option String)
    (p : List Char) (hp : p ∈ inStockPatterns cfg)
    (hm : pyIn p (lowerStr (stock_text.getD "")) = true) :
    is_in_stock stock_text cfg = true := by
  have h : (inStockPatterns cfg).any (fun q => pyIn q (lowerStr (stock_text.getD ""))) = true :=
    List.any_eq_true.mpr ⟨p, hp, hm⟩
  simp [is_in_stock, h]

/-- Witness for C2: a label containing both the default sold-out pattern
`"sold out"` and the default in-stock pattern `"add to cart"` is classified
`in_stock`. -/
theorem in_stock_pattern_priority_witness :
    is_in_stock (some "Sold out soon: add to cart") cfgDefault = true :=
  in_stock_pattern_priority cfgDefault (some "Sold out soon: add to cart")
    (lowerStr "add to cart") (by decide) (by decide)

/-- C3 counterexample: with the webhook endpoint absent from both the
configuration and the environment, the run still attempts extraction — the
fetch/parse step (`monitor.py` lines 207-217) runs before the webhook check
(lines 221-224) — refuting the claim's "no extraction is attempted". -/
theorem webhook_absent_extraction_attempted :
    truthy (pyOr cfgDefault.discord_webhook_url none) = false ∧
    Event.extract ∈
      (runMain cfgDefault none (Except.ok [itRestock]) stEmpty (fun _ => true) "t1").events := by
  refine ⟨rfl, ?_⟩
  simp [runMain, truthy, pyOr, cfgDefault]

/-- C3 (amended): if the webhook endpoint is absent from both configuration
and environment, the run aborts with a logged error, does not save state
(the snapshot on disk stays the prior one) and attempts no notification;
extraction, however, is attempted before the endpoint check. -/
theorem webhook_absent_aborts (cfg : Config) (env : Option String)
    (fetch : Except Unit (List RawItem)) (prev : State) (deliver : Nat → Bool)
    (now : Timestamp) (h : truthy (pyOr cfg.discord_webhook_url env) = false) :
    (runMain cfg env fetch prev deliver now).diskState = prev ∧
    Event.logError ∈ (runMain cfg env fetch prev deliver now).events ∧
    (∀ st, Event.saveState st ∉ (runMain cfg env fetch prev deliver now).events) ∧
    (∀ i b, Event.sendAttempt i b ∉ (runMain cfg env fetch prev deliver now).events) := by
  cases fetch <;> simp [runMain, h]

/-- Witness for C3's amended theorem at a concrete webhook-less run. -/
theorem webhook_absent_aborts_witness :
    (runMain cfgDefault none (Except.ok []) stEmpty (fun _ => false) "t1").diskState = stEmpty ∧
    Event.logError ∈ (runMain cfgDefault none (Except.ok []) stEmpty (fun _ => false) "t1").events ∧
    Event.saveState stEmpty ∉
      (runMain cfgDefault none (Except.ok []) stEmpty (fun _ => false) "t1").events ∧
    Event.sendAttempt 0 true ∉
      (runMain cfgDefault none (Except.ok []) stEmpty (fun _ => false) "t1").events := by
  have h := webhook_absent_aborts cfgDefault none (Except.ok []) stEmpty (fun _ => false) "t1" rfl
  exact ⟨h.1, h.2.1, h.2.2.1 stEmpty, h.2.2.2 0 true⟩

/-- C4: in a run that reaches persistence, the event trace is the extraction,
then the save of the fully assembled new snapshot, then one delivery attempt
per accumulated notification; every notification is attempted whatever the
delivery outcomes, and the state on disk does not depend on the delivery
outcomes. -/
theorem persist_before_notify (cfg : Config) (env : Option String) (items : List RawItem)
    (prev : State) (d1 d2 : Nat → Bool) (now : Timestamp)
    (h : truthy (pyOr cfg.discord_webhook_url env) = true) :
    (runMain cfg env (Except.ok items) prev d1 now).events =
      Event.extract ::
        Event.saveState { items := (processItems cfg prev.items now items [] []).1,
                          last_checked := some now } ::
        sendEvents d1 (processItems cfg prev.items now items [] []).2.length ∧
    (runMain cfg env (Except.ok items) prev d1 now).diskState =
      { items := (processItems cfg prev.items now items [] []).1,
        last_checked := some now } ∧
    (runMain cfg env (Except.ok items) prev d1 now).diskState =
      (runMain cfg env (Except.ok items) prev d2 now).diskState ∧
    (sendEvents d1 (processItems cfg prev.items now items [] []).2.length).length =
      (processItems cfg prev.items now items [] []).2.length := by
  refine ⟨?_, ?_, ?_, ?_⟩ <;> simp [runMain, h, sendEvents]

/-- Witness for C4: with one restock notification whose delivery fails, the
snapshot is still saved before the attempt and the disk state equals the one
of a run whose delivery succeeds. -/
theorem persist_before_notify_witness :
    (runMain cfgHook none (Except.ok [itRestock]) stPrior (fun _ => false) "t1").events =
      Event.extract ::
        Event.saveState { items := (processItems cfgHook stPrior.items "t1" [itRestock] [] []).1,
                          last_checked := some "t1" } ::
        sendEvents (fun _ => false)
          (processItems cfgHook stPrior.items "t1" [itRestock] [] []).2.length ∧
    (runMain cfgHook none (Except.ok [itRestock]) stPrior (fun _ => false) "t1").diskState =
      (runMain cfgHook none (Except.ok [itRestock]) stPrior (fun _ => true) "t1").diskState := by
  have h := persist_before_notify cfgHook none [itRestock] stPrior (fun _ => false)
    (fun _ => true) "t1" (by decide)
  exact ⟨h.1, h.2.2.1⟩

/-- C5 counterexample: with no configured patterns and
`assume_in_stock_if_no_label = true`, the non-empty whitespace-only label
`" "` is classified `in_stock` — the source tests `text.strip() == ""`, not
emptiness — while the claim requires `not_in_stock` for every non-empty
unmatched label. -/
theorem unmatched_label_cex :
    inStockPatterns cfgNoPatterns = [] ∧ soldOutPatterns cfgNoPatterns = [] ∧
    (" " : String) ≠ "" ∧
    is_in_stock (some " ") cfgNoPatterns = true := by
  refine ⟨rfl, rfl, by decide, by decide⟩

/-- C5 (amended): for a label matching no in-stock and no sold-out pattern
(absent labels are treated as the empty string), classification returns the
configured `assume_in_stock_if_no_label` value (default `false`) when the
label is empty or consists only of whitespace, and `not_in_stock` when the
label contains a non-whitespace character. -/
theorem unmatched_label_default (cfg : Config) (stock_text : Option String)
    (h1 : (inStockPatterns cfg).any (fun p => pyIn p (lowerStr (stock_text.getD ""))) = false)
    (h2 : (soldOutPatterns cfg).any (fun p => pyIn p (lowerStr (stock_text.getD ""))) = false) :
    is_in_stock stock_text cfg =
      if stripEmpty (lowerStr (stock_text.getD ""))
      then cfg.assume_in_stock_if_no_label.getD false
      else false := by
  simp [is_in_stock, h1, h2]

/-- Witness for C5's amended theorem: an unmatched non-whitespace label is
classified `not_in_stock` even with `assume_in_stock_if_no_label = true`. -/
theorem unmatched_label_default_witness :
    is_in_stock (some "mystery") cfgNoPatterns =
      (if stripEmpty (lowerStr ((some "mystery" : Option String).getD ""))
       then cfgNoPatterns.assume_in_stock_if_no_label.getD false
       else false) :=
  unmatched_label_default cfgNoPatterns (some "mystery") rfl rfl

/-- C6: whatever point `save_state` is interrupted at — before the temporary
write, mid-way through it, after it, or after the atomic replace — a reader
of the snapshot path observes either the prior contents or the complete new
serialized snapshot, never a truncated or mixed one. -/
theorem save_state_atomic (d : Disk) (data : List Char) (cp : CrashPoint) :
    readSnapshot (save_state_crash d data cp) = readSnapshot d ∨
    readSnapshot (save_state_crash d data cp) = some data := by
  cases cp <;> simp [save_state_crash, readSnapshot]

/-- C7: when extraction fails, the run logs the error and ends with the
prior snapshot untouched on disk: nothing is saved and no notification is
attempted, so the failure cannot be recorded as items going out of stock. -/
theorem extraction_failure_aborts (cfg : Config) (env : Option String) (e : Unit)
    (prev : State) (deliver : Nat → Bool) (now : Timestamp) :
    (runMain cfg env (Except.error e) prev deliver now).diskState = prev ∧
    Event.logError ∈ (runMain cfg env (Except.error e) prev deliver now).events ∧
    (∀ st, Event.saveState st ∉ (runMain cfg env (Except.error e) prev deliver now).events) ∧
    (∀ i b, Event.sendAttempt i b ∉
      (runMain cfg env (Except.error e) prev deliver now).events) := by
  simp [runMain]

/-- C8: after a run that reaches persistence, an identity has a record in
the saved snapshot exactly when some extracted item of this run resolves to
it, and every saved record is the fresh record (name, link, image, raw
label, current verdict, this run's timestamp) of such an item — vanished
identities are dropped and records are written whether or not a
notification fired. -/
theorem snapshot_keys_match_extraction (cfg : Config) (env : Option String)
    (items : List RawItem) (prev : State) (deliver : Nat → Bool) (now : Timestamp) (k : Key)
    (h : truthy (pyOr cfg.discord_webhook_url env) = true) :
    ((lookupS (runMain cfg env (Except.ok items) prev deliver now).diskState.items k).isSome
        = true ↔ ∃ it, it ∈ items ∧ itemId it = k) ∧
    (∀ r, lookupS (runMain cfg env (Except.ok items) prev deliver now).diskState.items k
        = some r →
      ∃ it, it ∈ items ∧ itemId it = k ∧
        r = mkRecord it (is_in_stock it.stock_text cfg) now) := by
  have hd : (runMain cfg env (Except.ok items) prev deliver now).diskState.items =
      (processItems cfg prev.items now items [] []).1 := by
    simp [runMain, h]
  have hl : lookupS (processItems cfg prev.items now items [] []).1 k =
      lastOcc cfg now k items := by
    rw [processItems_lookup]
    cases h0 : lastOcc cfg now k items <;> simp [lookupS]
  rw [hd, hl]
  exact ⟨lastOcc_isSome_iff cfg now k items, fun r hr => lastOcc_eq_some cfg now k items r hr⟩

/-- Witness for C8: after a run extracting only `itRestock`, identity
`some "u"` has a record in the saved snapshot. -/
theorem snapshot_keys_match_extraction_witness :
    (lookupS (runMain cfgHook none (Except.ok [itRestock]) stEmpty
        (fun _ => true) "t1").diskState.items (some "u")).isSome = true := by
  have h := snapshot_keys_match_extraction cfgHook none [itRestock] stEmpty
    (fun _ => true) "t1" (some "u") (by decide)
  exact h.1.mpr ⟨itRestock, by simp, by decide⟩

/-- C9: for an item with no prior record, the item loop emits the
new-item-in-stock decision when the verdict is `in_stock` and
`notify_new_in_stock` (default true) is enabled; otherwise the new-item
decision when `notify_new` (default false) is enabled; otherwise nothing. -/
theorem new_item_policy (cfg : Config) (prev : List (Key × Record)) (it : RawItem)
    (now : Timestamp) (h : lookupS prev (itemId it) = none) :
    (processItems cfg prev now [it] [] []).2 =
      if is_in_stock it.stock_text cfg && cfg.notify_new_in_stock.getD true
      then [(it, Reason.newInStock)]
      else if cfg.notify_new.getD false then [(it, Reason.newItem)]
      else [] := by
  rw [processItems_notifs]
  cases h1 : is_in_stock it.stock_text cfg && cfg.notify_new_in_stock.getD true with
  | true =>
      cases h1' : is_in_stock it.stock_text cfg <;>
        cases h2' : cfg.notify_new_in_stock.getD true <;>
          simp_all [stepNotif, decideReason]
  | false =>
      cases h2 : cfg.notify_new.getD false <;>
        cases h1' : is_in_stock it.stock_text cfg <;>
          cases h2' : cfg.notify_new_in_stock.getD true <;>
            simp_all [stepNotif, decideReason]

/-- Witness for C9: a brand-new in-stock item under the default
configuration yields the new-item-in-stock decision. -/
theorem new_item_policy_witness :
    (processItems cfgDefault [] "t1" [itRestock] [] []).2 =
      if is_in_stock itRestock.stock_text cfgDefault &&
          cfgDefault.notify_new_in_stock.getD true
      then [(itRestock, Reason.newInStock)]
      else if cfgDefault.notify_new.getD false then [(itRestock, Reason.newItem)]
      else [] :=
  new_item_policy cfgDefault [] itRestock "t1" rfl

/-- C10: each extracted occurrence is decided against the prior snapshot
alone (the notification list is the pointwise `stepNotif` of the occurrence
list, independent of records written earlier in the run), the persisted
record of an identity is the fresh record of its last occurrence in
extraction order, and two same-identity occurrences of a restocked item
produce two restock decisions in one run. -/
theorem duplicate_identity_occurrences (cfg : Config) (prev : List (Key × Record))
    (items : List RawItem) (now : Timestamp) (k : Key) :
    (processItems cfg prev now items [] []).2 = items.filterMap (stepNotif cfg prev) ∧
    lookupS (processItems cfg prev now items [] []).1 k = lastOcc cfg now k items ∧
    (processItems cfgDefault [(some "d", recDupPrior)] "t1" [itDup, itDup] [] []).2 =
      [(itDup, Reason.restock), (itDup, Reason.restock)] := by
  refine ⟨?_, ?_, ?_⟩
  · rw [processItems_notifs]; simp
  · rw [processItems_lookup]
    cases h0 : lastOcc cfg now k items <;> simp [lookupS]
  · decide

end PMserch
